import Mathlib

/-!
Verification development for the trakheesi-python-jobs-handler repository.

The definitions below are a shallow embedding of the supervisor
(src/master.py) and the worker loop (src/trakheesi_worker.py).
Python ints are modelled as Nat or Int, Python floats (success rates)
as rationals, fallible steps as Except values, and the per-worker log
file as an optional list of glyph tokens (none models a missing file).
-/

namespace Trakheesi

/-- A glyph occurring in a worker log: the success glyph, the failure
glyph, or any other character of the surrounding log text. -/
inductive Marker where
  | check
  | cross
  | other
deriving DecidableEq

/-- From src/master.py, parse_log_stats (lines 202-213): count the success
and failure glyphs in the log file; a missing log yields (0, 0). -/
def parse_log_stats : Option (List Marker) → Nat × Nat
  | none => (0, 0)
  | some content => (content.count Marker.check, content.count Marker.cross)

/-- The monitor-visible record of one worker slot: its current log file
(the live marker stream), the cumulative stats carried across restarts
(worker_cumulative in src/master.py line 26), the restart count
(worker_restarts, line 25), and whether poll() reports an exit code. -/
structure WorkerState where
  log : Option (List Marker)
  cumulative_success : Nat
  cumulative_failed : Nat
  restarts : Nat
  exited : Bool
deriving DecidableEq

/-- The auto-restart configuration (src/master.py lines 32-34 and the
CLI defaults at lines 357-368): restart_threshold is the minimum live
sample size, min_success_rate the minimum success percentage. -/
structure RestartPolicy where
  restart_threshold : Int
  min_success_rate : Rat
deriving DecidableEq

/-- From src/master.py line 226: rate = (success * 100 / total) if
total > 0 else 0.0, computed on the live counts. -/
def live_rate (success failed : Nat) : Rat :=
  if 0 < success + failed then (success * 100 : Rat) / (success + failed) else 0

/-- Total of the live counts parsed from a log. -/
def live_total (w : WorkerState) : Nat :=
  (parse_log_stats w.log).1 + (parse_log_stats w.log).2

/-- The restart decision of src/master.py lines 225-227: the live total
must reach restart_threshold and the live rate must be below
min_success_rate. -/
def check_worker (p : RestartPolicy) (w : WorkerState) : Bool :=
  decide ((((parse_log_stats w.log).1 + (parse_log_stats w.log).2 : Nat) : Int)
      ≥ p.restart_threshold)
    && decide (live_rate (parse_log_stats w.log).1 (parse_log_stats w.log).2
      < p.min_success_rate)

/-- The effect of a successful restart_worker call (src/master.py lines
167-199) on the monitor-visible record: the live counts passed in are
folded into cumulative, the restart count is incremented, the log file
is deleted by clean_worker_profile so the new live stream is empty, and
the fresh process is alive. -/
def restart_worker_state (w : WorkerState) (cs cf : Nat) : WorkerState :=
  { log := none
    cumulative_success := w.cumulative_success + cs
    cumulative_failed := w.cumulative_failed + cf
    restarts := w.restarts + 1
    exited := false }

/-- From src/master.py, check_and_restart_workers (lines 216-231): walk
the pool in ascending worker id (ids start at 1), parse each log, and
restart each worker whose live stats breach the policy, collecting the
restarted ids. The first argument threads the id of the head worker. -/
def check_and_restart_go (p : RestartPolicy) :
    Nat → List WorkerState → List WorkerState × List Nat
  | _, [] => ([], [])
  | i, w :: ws =>
    if check_worker p w then
      (restart_worker_state w (parse_log_stats w.log).1 (parse_log_stats w.log).2 ::
          (check_and_restart_go p (i + 1) ws).1,
        i :: (check_and_restart_go p (i + 1) ws).2)
    else
      (w :: (check_and_restart_go p (i + 1) ws).1, (check_and_restart_go p (i + 1) ws).2)

/-- One evaluate-and-restart pass over the whole pool, ids starting at 1. -/
def check_and_restart_workers (p : RestartPolicy) (pool : List WorkerState) :
    List WorkerState × List Nat :=
  check_and_restart_go p 1 pool

theorem check_and_restart_go_lb (p : RestartPolicy) (start j : Nat)
    (ws : List WorkerState) (h : j ∈ (check_and_restart_go p start ws).2) :
    start ≤ j := by
  induction ws generalizing start with
  | nil => simp [check_and_restart_go] at h
  | cons w ws ih =>
    by_cases hc : check_worker p w = true
    · simp only [check_and_restart_go, if_pos hc, List.mem_cons] at h
      rcases h with rfl | h
      · exact Nat.le_refl _
      · exact Nat.le_of_succ_le (ih (start + 1) h)
    · simp only [check_and_restart_go, if_neg hc] at h
      exact Nat.le_of_succ_le (ih (start + 1) h)

theorem check_and_restart_go_mem (p : RestartPolicy) (start j : Nat)
    (ws : List WorkerState) :
    j ∈ (check_and_restart_go p start ws).2 ↔
      ∃ i w, ws[i]? = some w ∧ check_worker p w = true ∧ j = start + i := by
  induction ws generalizing start with
  | nil => simp [check_and_restart_go]
  | cons w ws ih =>
    by_cases hc : check_worker p w = true
    · simp only [check_and_restart_go, if_pos hc, List.mem_cons]
      constructor
      · rintro (rfl | h)
        · exact ⟨0, w, by simp, hc, by simp⟩
        · obtain ⟨i, w2, hi, hcw, rfl⟩ := (ih (start + 1)).mp h
          exact ⟨i + 1, w2, by simpa using hi, hcw, by omega⟩
      · rintro ⟨i, w2, hi, hcw, rfl⟩
        cases i with
        | zero => left; omega
        | succ k =>
          right
          exact (ih (start + 1)).mpr ⟨k, w2, by simpa using hi, hcw, by omega⟩
    · simp only [check_and_restart_go, if_neg hc]
      rw [ih (start + 1)]
      constructor
      · rintro ⟨i, w2, hi, hcw, rfl⟩
        exact ⟨i + 1, w2, by simpa using hi, hcw, by omega⟩
      · rintro ⟨i, w2, hi, hcw, rfl⟩
        cases i with
        | zero =>
          simp only [List.getElem?_cons_zero, Option.some.injEq] at hi
          exact absurd (hi ▸ hcw) hc
        | succ k =>
          exact ⟨k, w2, by simpa using hi, hcw, by omega⟩

theorem check_and_restart_go_get (p : RestartPolicy) (start i : Nat)
    (ws : List WorkerState) (w : WorkerState) (h : ws[i]? = some w) :
    (check_and_restart_go p start ws).1[i]? =
      some (if check_worker p w then
        restart_worker_state w (parse_log_stats w.log).1 (parse_log_stats w.log).2
      else w) := by
  induction ws generalizing start i with
  | nil => simp at h
  | cons w0 ws ih =>
    cases i with
    | zero =>
      simp only [List.getElem?_cons_zero, Option.some.injEq] at h
      subst h
      by_cases hc : check_worker p w0 = true
      · simp [check_and_restart_go, hc]
      · simp [check_and_restart_go, hc]
    | succ k =>
      simp only [List.getElem?_cons_succ] at h
      by_cases hc : check_worker p w0 = true
      · simpa [check_and_restart_go, if_pos hc] using ih (start + 1) k h
      · simpa [check_and_restart_go, if_neg hc] using ih (start + 1) k h

theorem check_and_restart_go_count (p : RestartPolicy) (start j : Nat)
    (ws : List WorkerState) :
    ((check_and_restart_go p start ws).2).count j ≤ 1 := by
  induction ws generalizing start with
  | nil => simp [check_and_restart_go]
  | cons w ws ih =>
    by_cases hc : check_worker p w = true
    · simp only [check_and_restart_go, if_pos hc]
      rw [List.count_cons]
      by_cases hj : j = start
      · subst hj
        have hnot : j ∉ (check_and_restart_go p (j + 1) ws).2 := by
          intro hm
          have := check_and_restart_go_lb p (j + 1) j ws hm
          omega
        simp [List.count_eq_zero_of_not_mem hnot]
      · have h2 : ¬ (start = j) := by omega
        simp only [beq_iff_eq, hj, h2, if_false]
        simpa using ih (start + 1)
    · simp only [check_and_restart_go, if_neg hc]
      exact ih (start + 1)

/-- Helper: a worker whose live total is below the threshold is neither
restarted nor modified by an evaluate-and-restart pass. -/
theorem below_threshold_untouched (p : RestartPolicy)
    (pool : List WorkerState) (i : Nat) (w : WorkerState)
    (hw : pool[i]? = some w)
    (hlt : (((parse_log_stats w.log).1 + (parse_log_stats w.log).2 : Nat) : Int)
      < p.restart_threshold) :
    (i + 1) ∉ (check_and_restart_workers p pool).2 ∧
      (check_and_restart_workers p pool).1[i]? = some w := by
  have hcw : check_worker p w = false := by
    by_contra hne
    have htrue : check_worker p w = true := by
      cases h2 : check_worker p w
      · exact absurd h2 hne
      · rfl
    unfold check_worker at htrue
    rw [Bool.and_eq_true] at htrue
    have := of_decide_eq_true htrue.1
    omega
  constructor
  · intro hmem
    obtain ⟨i2, w2, hi2, hc2, heq⟩ :=
      (check_and_restart_go_mem p 1 (i + 1) pool).mp hmem
    have : i2 = i := by omega
    subst this
    rw [hw] at hi2
    cases hi2
    rw [hcw] at hc2
    cases hc2
  · have := check_and_restart_go_get p 1 i pool w hw
    rw [hcw] at this
    simpa using this

/-- Claim C1: the evaluate-and-restart pass never triggers a restart of a
worker whose live sample total is strictly below restart_threshold,
regardless of the success rate: such a worker is not in the restarted id
list and its record is left unchanged. -/
theorem threshold_gate_blocks_restart (p : RestartPolicy)
    (pool : List WorkerState) (i : Nat) (w : WorkerState)
    (hw : pool[i]? = some w)
    (hlt : (((parse_log_stats w.log).1 + (parse_log_stats w.log).2 : Nat) : Int)
      < p.restart_threshold) :
    (i + 1) ∉ (check_and_restart_workers p pool).2 ∧
      (check_and_restart_workers p pool).1[i]? = some w :=
  below_threshold_untouched p pool i w hw hlt

/-- Witness for C1: one worker with a single failure glyph (1 sample,
rate 0) under the default policy (threshold 40, min rate 75) is neither
restarted nor modified. -/
theorem threshold_gate_blocks_restart_witness :
    1 ∉ (check_and_restart_workers ⟨40, 75⟩
        [⟨some [Marker.cross], 0, 0, 0, false⟩]).2 ∧
      (check_and_restart_workers ⟨40, 75⟩
        [⟨some [Marker.cross], 0, 0, 0, false⟩]).1[0]? =
        some ⟨some [Marker.cross], 0, 0, 0, false⟩ :=
  threshold_gate_blocks_restart ⟨40, 75⟩ _ 0 _ rfl (by decide)

/-- Claim C3: a worker whose live stats reach the sample threshold with a
rate below min_success_rate is restarted exactly once in one evaluation
pass (its id has count 1 in the restarted list), and the decision is
independent of the other workers: any pool holding the same record at
the same slot restarts that id as well. -/
theorem breach_restarts_exactly_once (p : RestartPolicy)
    (pool : List WorkerState) (i : Nat) (w : WorkerState)
    (hw : pool[i]? = some w)
    (htot : p.restart_threshold
      ≤ (((parse_log_stats w.log).1 + (parse_log_stats w.log).2 : Nat) : Int))
    (hrate : live_rate (parse_log_stats w.log).1 (parse_log_stats w.log).2
      < p.min_success_rate) :
    ((check_and_restart_workers p pool).2).count (i + 1) = 1 ∧
      ∀ pool2 : List WorkerState, pool2[i]? = some w →
        (i + 1) ∈ (check_and_restart_workers p pool2).2 := by
  have hcw : check_worker p w = true := by
    unfold check_worker
    rw [Bool.and_eq_true]
    exact ⟨decide_eq_true htot, decide_eq_true hrate⟩
  have hmem : ∀ pool2 : List WorkerState, pool2[i]? = some w →
      (i + 1) ∈ (check_and_restart_workers p pool2).2 := by
    intro pool2 hw2
    exact (check_and_restart_go_mem p 1 (i + 1) pool2).mpr
      ⟨i, w, hw2, hcw, by omega⟩
  refine ⟨?_, hmem⟩
  have h1 : 1 ≤ ((check_and_restart_workers p pool).2).count (i + 1) :=
    List.count_pos_iff.mpr (hmem pool hw)
  have h2 : ((check_and_restart_workers p pool).2).count (i + 1) ≤ 1 :=
    check_and_restart_go_count p 1 (i + 1) pool
  omega

/-- Witness for C3: Scenario A worker 2 of the spec, 2 successes and 8
failures under policy (10, 50): restarted exactly once, in any pool
holding that record at slot 1. -/
theorem breach_restarts_exactly_once_witness :
    ((check_and_restart_workers ⟨10, 50⟩
        [⟨some (List.replicate 2 Marker.check ++ List.replicate 8 Marker.cross),
          0, 0, 0, false⟩]).2).count 1 = 1 ∧
      ∀ pool2 : List WorkerState,
        pool2[0]? = some ⟨some (List.replicate 2 Marker.check ++
            List.replicate 8 Marker.cross), 0, 0, 0, false⟩ →
          1 ∈ (check_and_restart_workers ⟨10, 50⟩ pool2).2 :=
  breach_restarts_exactly_once ⟨10, 50⟩ _ 0 _ rfl (by decide)
    (by
      have hp : parse_log_stats (some (List.replicate 2 Marker.check ++
          List.replicate 8 Marker.cross)) = (2, 8) := by decide
      show live_rate (parse_log_stats (some (List.replicate 2 Marker.check ++
          List.replicate 8 Marker.cross))).1
        (parse_log_stats (some (List.replicate 2 Marker.check ++
          List.replicate 8 Marker.cross))).2 < (50 : Rat)
      rw [hp]
      show live_rate 2 8 < (50 : Rat)
      norm_num [live_rate])

/-- Counterexample to claim C4: with total = 0 the code computes rate 0.0
(src/master.py line 226), not 100 percent, and with restart_threshold 0
and min rate 75 the evaluate-and-restart pass does restart a worker that
has zero live samples. -/
theorem zero_sample_rate_cex :
    live_rate 0 0 = 0 ∧
      (check_and_restart_workers ⟨0, 75⟩ [⟨none, 0, 0, 0, false⟩]).2 = [1] := by
  constructor
  · rfl
  · decide

/-- Claim C4 as amended: a worker with zero live samples has computed
rate 0 (not 100 percent); it is nevertheless never restarted provided
restart_threshold is at least 1, because the sample-size gate fails. -/
theorem zero_sample_never_restarted_if_threshold_pos (p : RestartPolicy)
    (pool : List WorkerState) (i : Nat) (w : WorkerState)
    (hw : pool[i]? = some w)
    (hzero : parse_log_stats w.log = (0, 0))
    (hpos : 1 ≤ p.restart_threshold) :
    live_rate 0 0 = 0 ∧ (i + 1) ∉ (check_and_restart_workers p pool).2 := by
  refine ⟨rfl, ?_⟩
  have hlt : (((parse_log_stats w.log).1 + (parse_log_stats w.log).2 : Nat) : Int)
      < p.restart_threshold := by
    rw [hzero]
    simpa using hpos
  exact (below_threshold_untouched p pool i w hw hlt).1

/-- Witness for amended C4: a worker with no log file under the default
policy (threshold 40) is not restarted and the zero-sample rate is 0. -/
theorem zero_sample_never_restarted_witness :
    live_rate 0 0 = 0 ∧
      1 ∉ (check_and_restart_workers ⟨40, 75⟩ [⟨none, 0, 0, 0, false⟩]).2 :=
  zero_sample_never_restarted_if_threshold_pos ⟨40, 75⟩ _ 0 _ rfl rfl (by decide)

/-- Appending one glyph to the log stream; a worker process creates the
file on its first write (src/master.py lines 127-133 redirect worker
output to the log file). -/
def append_marker : Option (List Marker) → Marker → Option (List Marker)
  | none, m => some [m]
  | some l, m => some (l ++ [m])

/-- An event visible to the monitor model of one worker slot: the worker
emits one glyph to its stream, or the monitor executes a restart
(src/master.py line 228 calls restart_worker with the freshly parsed
live counts). -/
inductive MonitorEv where
  | emit (m : Marker)
  | restart

/-- One step of the per-worker history. -/
def worker_step (w : WorkerState) : MonitorEv → WorkerState
  | MonitorEv.emit m => { w with log := append_marker w.log m }
  | MonitorEv.restart =>
      restart_worker_state w (parse_log_stats w.log).1 (parse_log_stats w.log).2

/-- Running a whole history of events over one worker slot. -/
def worker_run (w : WorkerState) (evs : List MonitorEv) : WorkerState :=
  evs.foldl worker_step w

/-- From src/master.py lines 266-268 (display_stats): the displayed
success count is the live count plus the cumulative count. -/
def effective_success (w : WorkerState) : Nat :=
  (parse_log_stats w.log).1 + w.cumulative_success

/-- Displayed failure count: live plus cumulative (src/master.py 267). -/
def effective_failed (w : WorkerState) : Nat :=
  (parse_log_stats w.log).2 + w.cumulative_failed

/-- Displayed total for one worker (src/master.py line 268). -/
def effective_total (w : WorkerState) : Nat :=
  effective_success w + effective_failed w

/-- The live-window totals observed along a history: the live total at
the moment of each restart decision, plus the final live window. -/
def window_totals : WorkerState → List MonitorEv → List Nat
  | w, [] => [live_total w]
  | w, MonitorEv.restart :: evs =>
      live_total w :: window_totals (worker_step w MonitorEv.restart) evs
  | w, MonitorEv.emit m :: evs =>
      window_totals (worker_step w (MonitorEv.emit m)) evs

/-- A worker slot as the pool creates it (src/master.py lines 154-158):
no log yet, zero cumulative stats, zero restarts. -/
def initial_worker : WorkerState :=
  { log := none, cumulative_success := 0, cumulative_failed := 0,
    restarts := 0, exited := false }

theorem effective_conservation (evs : List MonitorEv) :
    ∀ w : WorkerState, effective_total (worker_run w evs) =
      w.cumulative_success + w.cumulative_failed + (window_totals w evs).sum := by
  induction evs with
  | nil =>
    intro w
    simp [worker_run, window_totals, effective_total, effective_success,
      effective_failed, live_total]
    omega
  | cons e evs ih =>
    intro w
    cases e with
    | emit m =>
      have hrun : worker_run w (MonitorEv.emit m :: evs) =
          worker_run (worker_step w (MonitorEv.emit m)) evs := rfl
      rw [hrun, ih]
      simp [window_totals, worker_step]
    | restart =>
      have hrun : worker_run w (MonitorEv.restart :: evs) =
          worker_run (worker_step w MonitorEv.restart) evs := rfl
      rw [hrun, ih]
      simp [window_totals, worker_step, restart_worker_state, live_total]
      omega

/-- Claim C2: a restart folds the live counts at the decision moment into
cumulative, so the post-restart effective stats equal the pre-restart
cumulative plus the pre-restart live stats, and the new live stream
parses as (0, 0) because the log file was deleted; consequently, over
any history of emissions and restarts starting from a fresh worker, the
displayed total equals the sum of all live-window totals ever observed:
nothing is lost or double counted. -/
theorem restart_preserves_and_conserves_counts :
    (∀ w : WorkerState,
      effective_success (worker_step w MonitorEv.restart) =
        w.cumulative_success + (parse_log_stats w.log).1 ∧
      effective_failed (worker_step w MonitorEv.restart) =
        w.cumulative_failed + (parse_log_stats w.log).2 ∧
      parse_log_stats (worker_step w MonitorEv.restart).log = (0, 0)) ∧
    (∀ evs : List MonitorEv,
      effective_total (worker_run initial_worker evs) =
        (window_totals initial_worker evs).sum) := by
  constructor
  · intro w
    refine ⟨?_, ?_, rfl⟩
    · simp [worker_step, restart_worker_state, effective_success, parse_log_stats]
    · simp [worker_step, restart_worker_state, effective_failed, parse_log_stats]
  · intro evs
    have := effective_conservation evs initial_worker
    simpa [initial_worker] using this

/-- Outcome of the POST to the results API inside submit_result
(src/trakheesi_worker.py lines 57-69): an HTTP status code, or a
transport error raised by the client. -/
inductive SubmitOutcome where
  | status (code : Nat)
  | transportError
deriving DecidableEq

/-- From src/trakheesi_worker.py, submit_result (lines 57-69): true iff
the POST returned status 200; any exception is caught, logged and
yields false. -/
def submit_result : SubmitOutcome → Bool
  | SubmitOutcome.status code => code == 200
  | SubmitOutcome.transportError => false

/-- Python truthiness of the scrape result (a JSON object or None):
true iff it is a non-empty object. -/
def truthy : Option (List (String × String)) → Bool
  | some (_ :: _) => true
  | _ => false

/-- The counters of the worker loop (src/trakheesi_worker.py lines
186-190). -/
structure LoopCounters where
  jobs_processed : Nat
  jobs_failed : Nat
  jobs_since_restart : Nat
  jobs_since_report : Nat
deriving DecidableEq

/-- report_every = 10 (src/trakheesi_worker.py line 190). -/
def report_every : Nat := 10

/-- The browser-restart gate at the top of the per-job body
(src/trakheesi_worker.py line 205): restart_every positive, counter at
or above restart_every, and no persistent profile in use. -/
def should_restart_session (restart_every : Int) (use_profile : Bool)
    (jobs_since_restart : Nat) : Bool :=
  decide (0 < restart_every) && decide ((jobs_since_restart : Int) ≥ restart_every)
    && !use_profile

/-- Result of processing one job that has an id, in the worker loop. -/
structure JobStep where
  sessionRestarted : Bool
  markers : List Marker
  counters : LoopCounters
deriving DecidableEq

/-- From src/trakheesi_worker.py, the per-job body of run_worker (lines
199-248): possibly restart the browser session first (lines 204-214,
resetting jobs_since_restart), scrape, and on a truthy result submit;
print exactly one glyph per completed attempt; success increments
jobs_processed and jobs_since_restart (lines 226-229), a submit failure
increments jobs_failed only (lines 231-233), a scrape failure increments
jobs_failed and jobs_since_restart (lines 235-238); finally the periodic
stats report resets jobs_since_report (lines 241-245). -/
def process_job (restart_every : Int) (use_profile : Bool)
    (scrape : Option (List (String × String))) (submit : SubmitOutcome)
    (c : LoopCounters) : JobStep :=
  let doRestart := should_restart_session restart_every use_profile c.jobs_since_restart
  let c0 := if doRestart then { c with jobs_since_restart := 0 } else c
  let step :=
    if truthy scrape then
      if submit_result submit then
        { sessionRestarted := doRestart
          markers := [Marker.check]
          counters := { c0 with
            jobs_processed := c0.jobs_processed + 1
            jobs_since_restart := c0.jobs_since_restart + 1
            jobs_since_report := c0.jobs_since_report + 1 } }
      else
        { sessionRestarted := doRestart
          markers := [Marker.cross]
          counters := { c0 with
            jobs_failed := c0.jobs_failed + 1
            jobs_since_report := c0.jobs_since_report + 1 } }
    else
      { sessionRestarted := doRestart
        markers := [Marker.cross]
        counters := { c0 with
          jobs_failed := c0.jobs_failed + 1
          jobs_since_restart := c0.jobs_since_restart + 1
          jobs_since_report := c0.jobs_since_report + 1 } }
  if report_every ≤ step.counters.jobs_since_report then
    { step with counters := { step.counters with jobs_since_report := 0 } }
  else
    step

theorem report_reset_markers (s : JobStep) :
    (if report_every ≤ s.counters.jobs_since_report then
      { s with counters := { s.counters with jobs_since_report := 0 } }
    else s).markers = s.markers := by
  split
  · rfl
  · rfl

theorem report_reset_restarted (s : JobStep) :
    (if report_every ≤ s.counters.jobs_since_report then
      { s with counters := { s.counters with jobs_since_report := 0 } }
    else s).sessionRestarted = s.sessionRestarted := by
  split
  · rfl
  · rfl

theorem report_reset_jsr (s : JobStep) :
    (if report_every ≤ s.counters.jobs_since_report then
      { s with counters := { s.counters with jobs_since_report := 0 } }
    else s).counters.jobs_since_restart = s.counters.jobs_since_restart := by
  split
  · rfl
  · rfl

/-- Claim C5: processing one job with an id emits exactly one glyph: the
success glyph iff the scrape result is truthy (non-empty) and the submit
returned HTTP 200, and the failure glyph in every other case (None or
empty scrape result, submit with a non-200 status, or a submit transport
error). -/
theorem one_marker_per_job (restart_every : Int) (use_profile : Bool)
    (scrape : Option (List (String × String))) (submit : SubmitOutcome)
    (c : LoopCounters) :
    ((process_job restart_every use_profile scrape submit c).markers).length = 1 ∧
      ((process_job restart_every use_profile scrape submit c).markers =
          [Marker.check] ↔
        truthy scrape = true ∧ submit_result submit = true) ∧
      ((process_job restart_every use_profile scrape submit c).markers =
          [Marker.cross] ↔
        ¬ (truthy scrape = true ∧ submit_result submit = true)) := by
  unfold process_job
  simp only [report_reset_markers]
  by_cases hs : truthy scrape = true
  · by_cases hb : submit_result submit = true
    · simp [hs, hb]
    · simp [hs, hb]
  · simp [hs]

/-- Counterexample to claim C7: not every completed attempt increments
jobs_since_restart: a submit failure (truthy scrape, then HTTP 500)
leaves the counter unchanged, here at 0 instead of 1. -/
theorem submit_failure_counter_cex :
    ¬ ∀ (scrape : Option (List (String × String))) (submit : SubmitOutcome)
        (c : LoopCounters),
      (process_job 5 false scrape submit c).counters.jobs_since_restart =
        c.jobs_since_restart + 1 := by
  intro h
  have := h (some [("k", "v")]) (SubmitOutcome.status 500) ⟨0, 0, 0, 0⟩
  exact absurd this (by decide)

/-- Claim C7 as amended: the session-restart gate fires exactly when the
counter has reached restart_every (with restart_every positive and no
persistent profile), and the counter afterwards counts only successful
dispatches and scrape failures: a submit-failure dispatch does not
increment it. -/
theorem session_counter_dynamics (restart_every : Int) (use_profile : Bool)
    (scrape : Option (List (String × String))) (submit : SubmitOutcome)
    (c : LoopCounters) :
    (process_job restart_every use_profile scrape submit c).sessionRestarted =
        should_restart_session restart_every use_profile c.jobs_since_restart ∧
      (process_job restart_every use_profile scrape submit c).counters.jobs_since_restart =
        (if should_restart_session restart_every use_profile c.jobs_since_restart
          then 0 else c.jobs_since_restart)
        + (if truthy scrape && !submit_result submit then 0 else 1) := by
  unfold process_job
  simp only [report_reset_restarted, report_reset_jsr]
  by_cases hr : should_restart_session restart_every use_profile c.jobs_since_restart
    = true
  · by_cases hs : truthy scrape = true
    · by_cases hb : submit_result submit = true
      · simp [hr, hs, hb]
      · simp [hr, hs, hb]
    · simp [hr, hs]
  · rw [Bool.not_eq_true] at hr
    by_cases hs : truthy scrape = true
    · by_cases hb : submit_result submit = true
      · simp [hr, hs, hb]
      · simp [hr, hs, hb]
    · simp [hr, hs]

/-- A job descriptor as the jobs API returns it: the id key may be
absent, and a timestamp may be present. -/
structure Job where
  id : Option String
  timestamp : Option Int
deriving DecidableEq

/-- The JSON body of a 200 response from the jobs API: an array, an
object (with or without an id key), or some other JSON value. -/
inductive JsonBody where
  | jarr (jobs : List Job)
  | jobj (hasId : Bool) (j : Job)
  | otherJson
deriving DecidableEq

/-- What the GET to the jobs API did: returned a status code with a
body, timed out on the long-poll read, or raised some other transport
error. -/
inductive FetchOutcome where
  | status (code : Nat) (body : JsonBody)
  | readTimeout
  | otherError
deriving DecidableEq

/-- From src/trakheesi_worker.py, fetch_jobs (lines 38-54): a 200 with a
list body is returned as is, a 200 with a dict body holding an id key is
wrapped in a singleton list, 304 means no new jobs, a read timeout is
normal for long-polling, and any other exception is caught and logged
(the Bool records that the error message was printed); every path
returns a job list. -/
def fetch_jobs : FetchOutcome → List Job × Bool
  | FetchOutcome.status code body =>
      if code == 200 then
        match body with
        | JsonBody.jarr jobs => (jobs, false)
        | JsonBody.jobj true j => ([j], false)
        | JsonBody.jobj false _ => ([], false)
        | JsonBody.otherJson => ([], false)
      else if code == 304 then ([], false)
      else ([], false)
  | FetchOutcome.readTimeout => ([], false)
  | FetchOutcome.otherError => ([], true)

/-- What happened in the try body of the poll loop after fetch_jobs
returned (src/trakheesi_worker.py lines 192-260): normal completion, an
exception escaping the job-processing block (caught at line 258 with a
poll_interval sleep), or a KeyboardInterrupt (line 253, the only break). -/
inductive BodyEvent where
  | normal
  | raisesError
  | interrupt
deriving DecidableEq

/-- The observable outcome of one iteration of the while loop of
run_worker. -/
structure IterResult where
  jobs : List Job
  fetchErrorLogged : Bool
  backoff : Nat
  breaks : Bool
deriving DecidableEq

/-- One iteration of the while True loop of run_worker
(src/trakheesi_worker.py lines 192-260): fetch never raises, so the
except handlers are reached only by events inside the body; the
Exception handler sleeps poll_interval, the KeyboardInterrupt handler
breaks, and every other path polls again immediately. -/
def loop_iteration (poll_interval : Nat) (o : FetchOutcome) (ev : BodyEvent) :
    IterResult :=
  match ev with
  | BodyEvent.normal =>
      { jobs := (fetch_jobs o).1, fetchErrorLogged := (fetch_jobs o).2,
        backoff := 0, breaks := false }
  | BodyEvent.raisesError =>
      { jobs := (fetch_jobs o).1, fetchErrorLogged := (fetch_jobs o).2,
        backoff := poll_interval, breaks := false }
  | BodyEvent.interrupt =>
      { jobs := (fetch_jobs o).1, fetchErrorLogged := (fetch_jobs o).2,
        backoff := 0, breaks := true }

/-- Counterexample to claim C8: a transport error in the poll step is
caught and logged and the loop continues, but it is NOT followed by a
backoff: with poll_interval 5 the iteration performs a sleep of 0
seconds before the next poll, because fetch_jobs swallows the error and
the sleeping except handler of the loop is never reached. -/
theorem transport_error_no_backoff_cex :
    loop_iteration 5 FetchOutcome.otherError BodyEvent.normal =
      { jobs := [], fetchErrorLogged := true, backoff := 0, breaks := false } := by
  decide

/-- Claim C8 as amended: a long-poll read timeout and a 304 yield a
normal empty job list; any other transport error is caught and logged
inside fetch_jobs and also yields an empty job list, and the loop never
terminates on it and performs no backoff before the next poll: the
poll_interval backoff happens only when an exception escapes the
job-processing body. -/
theorem poll_error_handling (poll_interval : Nat) (o : FetchOutcome)
    (body : JsonBody) :
    (loop_iteration poll_interval FetchOutcome.readTimeout BodyEvent.normal).jobs
        = [] ∧
      (loop_iteration poll_interval (FetchOutcome.status 304 body)
        BodyEvent.normal).jobs = [] ∧
      loop_iteration poll_interval FetchOutcome.otherError BodyEvent.normal =
        { jobs := [], fetchErrorLogged := true, backoff := 0, breaks := false } ∧
      (loop_iteration poll_interval o BodyEvent.normal).breaks = false ∧
      (loop_iteration poll_interval o BodyEvent.raisesError).breaks = false ∧
      (loop_iteration poll_interval o BodyEvent.raisesError).backoff =
        poll_interval := by
  refine ⟨rfl, rfl, rfl, ?_, ?_, ?_⟩
  · rfl
  · rfl
  · rfl

/-- A Python exception escaping one of the restart steps. -/
inductive PyErr where
  | osError
  | copyError
  | timeoutExpired
  | spawnError
deriving DecidableEq

/-- The environment a restart runs against: whether poll() already
reports an exit code, whether each wait call times out, whether the
profile directory and the log file exist, which rmtree attempts raise
OSError, and whether log unlink, profile copytree or process spawn
raise. -/
structure RestartEnv where
  procExited : Bool
  firstWaitTimesOut : Bool
  secondWaitTimesOut : Bool
  profileExists : Bool
  rmtreeFailsAt : Nat → Bool
  logExists : Bool
  unlinkFails : Bool
  copytreeFails : Bool
  spawnFails : Bool

/-- Observable trace of the rmtree retry loop of clean_worker_profile
(src/master.py lines 84-93): whether the loop broke out on a successful
delete, how many delete attempts ran, how many 2 second sleeps happened,
and whether the final forced ignore_errors delete was invoked. -/
structure RmtreeLoop where
  broke : Bool
  attempts : Nat
  sleeps : Nat
  forced : Bool
deriving DecidableEq

/-- One iteration of the for attempt in range(retries) loop of
clean_worker_profile: try rmtree and break on success; on OSError sleep
2 seconds if a retry remains, otherwise force-delete ignoring errors. -/
def rmtree_step (failsAt : Nat → Bool) (retries : Nat) (st : RmtreeLoop)
    (attempt : Nat) : RmtreeLoop :=
  if st.broke then st
  else if failsAt attempt then
    if attempt < retries - 1 then
      { st with attempts := st.attempts + 1, sleeps := st.sleeps + 1 }
    else
      { st with attempts := st.attempts + 1, forced := true }
  else
    { st with attempts := st.attempts + 1, broke := true }

/-- The whole retry loop of clean_worker_profile (src/master.py lines
84-93). -/
def rmtree_retry (failsAt : Nat → Bool) (retries : Nat) : RmtreeLoop :=
  (List.range retries).foldl (rmtree_step failsAt retries) ⟨false, 0, 0, false⟩

/-- From src/master.py, clean_worker_profile (lines 80-97): run the
rmtree retry loop if the profile directory exists (the loop itself never
raises: OSError is caught and the last resort delete ignores errors),
then unlink the log file if it exists; the unlink call is not guarded,
so its failure raises. -/
def clean_worker_profile (env : RestartEnv) (retries : Nat) :
    Except PyErr RmtreeLoop :=
  if env.logExists && env.unlinkFails then
    Except.error PyErr.osError
  else
    Except.ok (if env.profileExists then rmtree_retry env.rmtreeFailsAt retries
      else ⟨false, 0, 0, false⟩)

/-- The termination phase of restart_worker (src/master.py lines
177-185): skipped entirely when poll() reports an exit code; otherwise
terminate and wait 5 seconds, on timeout kill and wait again, and a
second timeout raises out of the function. Returns whether terminate was
invoked. -/
def terminate_phase (env : RestartEnv) : Except PyErr Bool :=
  if env.procExited then Except.ok false
  else if !env.firstWaitTimesOut then Except.ok true
  else if !env.secondWaitTimesOut then Except.ok true
  else Except.error PyErr.timeoutExpired

/-- From src/master.py, create_worker_profile (lines 108-111): a bare
shutil.copytree with no error handling; its failure raises. -/
def create_worker_profile (env : RestartEnv) : Except PyErr Unit :=
  if env.copytreeFails then Except.error PyErr.copyError else Except.ok ()

/-- From src/master.py, start_single_worker (lines 123-144) as seen by
restart_worker: a Popen call whose failure raises. -/
def start_single_worker (env : RestartEnv) : Except PyErr Unit :=
  if env.spawnFails then Except.error PyErr.spawnError else Except.ok ()

/-- Result of a completed restart: the new worker record and whether
terminate was invoked on the old process. -/
structure RestartOutcome where
  state : WorkerState
  terminated : Bool
deriving DecidableEq

/-- From src/master.py, restart_worker (lines 167-199): fold the passed
live counts into cumulative, terminate the old process if still alive,
sleep, clean and recreate the profile (retries defaults to 3), spawn a
fresh process and bump the restart count. The body has no exception
handler: any raising step propagates to the caller. -/
def restart_worker (env : RestartEnv) (w : WorkerState) (cs cf : Nat) :
    Except PyErr RestartOutcome := do
  let w1 : WorkerState :=
    { w with cumulative_success := w.cumulative_success + cs,
             cumulative_failed := w.cumulative_failed + cf }
  let term ← terminate_phase env
  let _ ← clean_worker_profile env 3
  let _ ← create_worker_profile env
  let _ ← start_single_worker env
  Except.ok
    { state := { w1 with log := none, restarts := w1.restarts + 1, exited := false }
      terminated := term }

/-- True iff an Except value carries no error. -/
def exceptOk {α : Type} : Except PyErr α → Bool
  | Except.ok _ => true
  | Except.error _ => false

/-- Counterexample to claim C6: a failing profile recreation (copytree
raising, for example because the master profile is gone) escapes
restart_worker as an exception: nothing in src/master.py lines 167-199
catches or logs it, so it aborts the monitoring loop of the caller. -/
theorem restart_step_failure_escapes_cex :
    restart_worker
      { procExited := false, firstWaitTimesOut := false,
        secondWaitTimesOut := false, profileExists := true,
        rmtreeFailsAt := fun _ => false, logExists := false,
        unlinkFails := false, copytreeFails := true, spawnFails := false }
      ⟨some [Marker.cross], 0, 0, 0, false⟩ 10 30 =
      Except.error PyErr.copyError := by
  rfl

/-- Claim C6 as amended: only the transient OSErrors of the profile
directory delete are contained (retried, then force-deleted ignoring
errors); restart_worker completes without an escaping exception exactly
when the double wait timeout, the log unlink, the profile copytree and
the process spawn all do not fail, independently of which rmtree
attempts fail. -/
theorem restart_worker_escape_conditions (env : RestartEnv) (w : WorkerState)
    (cs cf : Nat) :
    exceptOk (restart_worker env w cs cf) =
      (!(!env.procExited && env.firstWaitTimesOut && env.secondWaitTimesOut)
        && !(env.logExists && env.unlinkFails)
        && !env.copytreeFails && !env.spawnFails) := by
  obtain ⟨pe, fw, sw, prof, rf, le, uf, ctf, sf⟩ := env
  cases pe <;> cases fw <;> cases sw <;> cases le <;> cases uf <;> cases ctf
    <;> cases sf <;> rfl

theorem rmtree_foldl_broke (failsAt : Nat → Bool) (retries : Nat)
    (l : List Nat) (st : RmtreeLoop) (h : st.broke = true) :
    l.foldl (rmtree_step failsAt retries) st = st := by
  induction l generalizing st with
  | nil => rfl
  | cons a l ih =>
    have hstep : rmtree_step failsAt retries st a = st := by
      unfold rmtree_step
      rw [if_pos h]
    rw [List.foldl_cons, hstep]
    exact ih st h

theorem rmtree_prefix_fails (failsAt : Nat → Bool) (retries : Nat) :
    ∀ j : Nat, j < retries → (∀ k, k < j → failsAt k = true) →
      (List.range j).foldl (rmtree_step failsAt retries) ⟨false, 0, 0, false⟩ =
        ⟨false, j, j, false⟩ := by
  intro j
  induction j with
  | zero => intro _ _; rfl
  | succ n ih =>
    intro hj hfail
    rw [List.range_succ, List.foldl_append]
    rw [ih (by omega) (fun k hk => hfail k (by omega))]
    unfold rmtree_step
    have h1 : failsAt n = true := hfail n (by omega)
    have h2 : n < retries - 1 := by omega
    simp [h1, h2]

theorem rmtree_retry_success (failsAt : Nat → Bool) (retries j : Nat)
    (hj : j < retries) (hfail : ∀ k, k < j → failsAt k = true)
    (hsucc : failsAt j = false) :
    rmtree_retry failsAt retries = ⟨true, j + 1, j, false⟩ := by
  have h1 : List.range retries =
      List.range (j + 1) ++ (List.range (retries - (j + 1))).map ((j + 1) + ·) := by
    rw [← List.range_add]
    congr 1
    omega
  rw [rmtree_retry, h1, List.foldl_append]
  rw [List.range_succ, List.foldl_append]
  rw [rmtree_prefix_fails failsAt retries j hj hfail]
  have hstep : rmtree_step failsAt retries ⟨false, j, j, false⟩ j =
      ⟨true, j + 1, j, false⟩ := by
    unfold rmtree_step
    simp [hsucc]
  rw [List.foldl_cons, List.foldl_nil, hstep]
  exact rmtree_foldl_broke failsAt retries _ _ rfl

theorem rmtree_forced_all_fail (g : Nat → Bool) (r : Nat)
    (h : (rmtree_retry g r).forced = true) : ∀ k, k < r → g k = true := by
  intro k hk
  by_contra hgk
  have hgk2 : g k = false := by
    cases h2 : g k
    · rfl
    · exact absurd h2 hgk
  have hex : ∃ n, g n = false ∧ n < r := ⟨k, hgk2, hk⟩
  have hspec := Nat.find_spec hex
  have hfail : ∀ m, m < Nat.find hex → g m = true := by
    intro m hm
    have hmin := Nat.find_min hex hm
    have hmr : m < r := lt_trans hm hspec.2
    cases hgm : g m
    · exact absurd ⟨hgm, hmr⟩ hmin
    · rfl
  have heq := rmtree_retry_success g r (Nat.find hex) hspec.2 hfail hspec.1
  rw [heq] at h
  exact absurd h (by simp)

/-- Claim C9: the profile-directory removal loop attempts the delete,
sleeps about 2 seconds after each failed attempt that still has a retry
left, and retries up to the given bound; a delete that succeeds at
attempt j (counting from 0, with all earlier attempts failing) breaks
out after j + 1 attempts and j sleeps without invoking the forced
ignore_errors delete; and whenever the forced delete was invoked, every
attempt up to the bound had failed. -/
theorem profile_removal_retry_policy (failsAt : Nat → Bool) (retries j : Nat)
    (hj : j < retries) (hfail : ∀ k, k < j → failsAt k = true)
    (hsucc : failsAt j = false) :
    rmtree_retry failsAt retries = ⟨true, j + 1, j, false⟩ ∧
      ∀ (g : Nat → Bool) (r : Nat), (rmtree_retry g r).forced = true →
        ∀ k, k < r → g k = true :=
  ⟨rmtree_retry_success failsAt retries j hj hfail hsucc,
    rmtree_forced_all_fail⟩

/-- Witness for C9: Scenario C of the spec, retries = 3 with a
lock-then-release (the first attempt fails, the second succeeds): the
loop stops after 2 attempts and 1 backoff sleep with the forced delete
not invoked. -/
theorem profile_removal_retry_policy_witness :
    rmtree_retry (fun k => decide (k = 0)) 3 = ⟨true, 2, 1, false⟩ ∧
      ∀ (g : Nat → Bool) (r : Nat), (rmtree_retry g r).forced = true →
        ∀ k, k < r → g k = true :=
  profile_removal_retry_policy (fun k => decide (k = 0)) 3 1 (by decide)
    (by decide) (by decide)

/-- Claim C10: the evaluate-and-restart decision never consults process
liveness: the check is invariant under the exited flag, a worker whose
process has already exited is restarted whenever its frozen live log
stats meet the threshold criteria, and the restart completes without an
escaping exception on the dead process (termination skipped, terminate
never invoked) as long as the file steps themselves succeed. -/
theorem dead_worker_still_restarted (p : RestartPolicy)
    (pool : List WorkerState) (i : Nat) (w : WorkerState)
    (hw : pool[i]? = some w) (hdead : w.exited = true)
    (htot : p.restart_threshold
      ≤ (((parse_log_stats w.log).1 + (parse_log_stats w.log).2 : Nat) : Int))
    (hrate : live_rate (parse_log_stats w.log).1 (parse_log_stats w.log).2
      < p.min_success_rate)
    (env : RestartEnv) (cs cf : Nat)
    (h1 : env.procExited = true)
    (h2 : (env.logExists && env.unlinkFails) = false)
    (h3 : env.copytreeFails = false)
    (h4 : env.spawnFails = false) :
    (i + 1) ∈ (check_and_restart_workers p pool).2 ∧
      restart_worker env w cs cf =
        Except.ok ⟨restart_worker_state w cs cf, false⟩ ∧
      ∀ b : Bool, check_worker p { w with exited := b } = check_worker p w := by
  have hcw : check_worker p w = true := by
    unfold check_worker
    rw [Bool.and_eq_true]
    exact ⟨decide_eq_true htot, decide_eq_true hrate⟩
  refine ⟨?_, ?_, ?_⟩
  · exact (check_and_restart_go_mem p 1 (i + 1) pool).mpr ⟨i, w, hw, hcw, by omega⟩
  · have hterm : terminate_phase env = Except.ok false := by
      unfold terminate_phase
      rw [if_pos h1]
    have hclean : clean_worker_profile env 3 =
        Except.ok (if env.profileExists then rmtree_retry env.rmtreeFailsAt 3
          else ⟨false, 0, 0, false⟩) := by
      unfold clean_worker_profile
      rw [h2]
      simp
    have hcreate : create_worker_profile env = Except.ok () := by
      unfold create_worker_profile
      rw [h3]
      simp
    have hspawn : start_single_worker env = Except.ok () := by
      unfold start_single_worker
      rw [h4]
      simp
    unfold restart_worker
    rw [hterm, hclean, hcreate, hspawn]
    rfl
  · intro b
    rfl

/-- Witness for C10: a dead worker (exited flag set) holding 2 successes
and 8 failures under policy (10, 50), with a benign environment, is
restarted without terminate being invoked and without any escaping
exception. -/
theorem dead_worker_still_restarted_witness :
    1 ∈ (check_and_restart_workers ⟨10, 50⟩
        [⟨some (List.replicate 2 Marker.check ++ List.replicate 8 Marker.cross),
          0, 0, 0, true⟩]).2 ∧
      restart_worker
        { procExited := true, firstWaitTimesOut := false,
          secondWaitTimesOut := false, profileExists := true,
          rmtreeFailsAt := fun _ => false, logExists := true,
          unlinkFails := false, copytreeFails := false, spawnFails := false }
        ⟨some (List.replicate 2 Marker.check ++ List.replicate 8 Marker.cross),
          0, 0, 0, true⟩ 2 8 =
        Except.ok ⟨restart_worker_state
          ⟨some (List.replicate 2 Marker.check ++ List.replicate 8 Marker.cross),
            0, 0, 0, true⟩ 2 8, false⟩ ∧
      ∀ b : Bool, check_worker ⟨10, 50⟩
          { (⟨some (List.replicate 2 Marker.check ++ List.replicate 8 Marker.cross),
            0, 0, 0, true⟩ : WorkerState) with exited := b } =
        check_worker ⟨10, 50⟩
          ⟨some (List.replicate 2 Marker.check ++ List.replicate 8 Marker.cross),
            0, 0, 0, true⟩ :=
  dead_worker_still_restarted ⟨10, 50⟩ _ 0 _ rfl rfl (by decide)
    (by
      have hp : parse_log_stats (some (List.replicate 2 Marker.check ++
          List.replicate 8 Marker.cross)) = (2, 8) := by decide
      show live_rate (parse_log_stats (some (List.replicate 2 Marker.check ++
          List.replicate 8 Marker.cross))).1
        (parse_log_stats (some (List.replicate 2 Marker.check ++
          List.replicate 8 Marker.cross))).2 < (50 : Rat)
      rw [hp]
      show live_rate 2 8 < (50 : Rat)
      norm_num [live_rate])
    _ 2 8 rfl rfl rfl rfl

end Trakheesi
